import Mathlib

/-!
Shallow embedding of the estimate-scheduler service (`src/app.py`): the
booking allocator, its audit log, the time-off model, and the RFMS (CRM)
session cache and client response handling.  The SQLite tables are modelled
as lists of rows inside an explicit `DbState`; the HTTP handlers become pure
functions from a request payload and a database state to a result and a new
state.  External effects (the CRM network calls, the wall clock) are passed
in as explicit parameters so the handlers stay pure.
-/

namespace EstimateScheduler

/-- A row of the `bookings` table (see `init_db` in `src/app.py`).
`estimator_id` is `INTEGER NOT NULL`; the table carries
`UNIQUE(date, time_slot, estimator_id)`. -/
structure Booking where
  id : Nat
  date : String
  time_slot : String
  estimator_id : Nat
  first_name : String
  last_name : String
  phone : String
  email : String
  address : String
  city : String
  state : String
  zip : String
  flooring_type : String
  rooms : Int
  notes : String
  created_at : String
  created_by : String
  rfms_customer_id : String
  rfms_estimate_id : String
deriving Repr, DecidableEq

/-- A row of the append-only `booking_log` table. -/
structure LogEntry where
  booking_id : Nat
  action : String
  changed_by : String
  details : String
  created_at : String
deriving Repr, DecidableEq

/-- A row of the `time_off` table: `estimator_id` is `NOT NULL`, while
`date` and `day_of_week` are nullable columns (hence `Option`). -/
structure TimeOffEntry where
  id : Nat
  estimator_id : Nat
  date : Option String
  day_of_week : Option Nat
  label : String
  recurring : Bool
deriving Repr, DecidableEq

/-- The persistent state the modelled handlers touch: the `bookings`,
`booking_log` and `time_off` tables plus the autoincrement counters. -/
structure DbState where
  bookings : List Booking
  booking_log : List LogEntry
  time_off : List TimeOffEntry
  next_booking_id : Nat
  next_timeoff_id : Nat
deriving Repr, DecidableEq

/-- Result of a handler, abstracting the Flask JSON responses:
`created` is the 201 response of `create_booking` (with the `rfms_synced`
flag and the `rfms_log` fragment list it returns), `ok` is a plain
`{"ok": true}` 200 response, and `err` carries an HTTP status and message. -/
inductive ApiResult where
  | created (id : Nat) (rfms_synced : Bool) (rfms_log : List String)
  | ok
  | err (status : Nat) (msg : String)
deriving Repr, DecidableEq

/-! ### Session cache (`rfms_get_session`) -/

/-- The process-wide `rfms_session` dict: a token and an absolute expiry
instant (seconds).  The lock is not modelled: the whole body runs under it,
so each call is one atomic step. -/
structure SessionCache where
  token : String
  expires : Nat
deriving Repr, DecidableEq

/-- Outcome of the `POST /session/begin` authentication round-trip:
`ok body_token` is an HTTP success whose parsed body yields
`data.get("sessionToken", "")` (possibly `""` when the field is missing),
`fail` is a network error or a `raise_for_status` failure. -/
inductive AuthOutcome where
  | ok (sessionToken : String)
  | fail
deriving Repr, DecidableEq

/-- What `rfms_get_session` produces: the returned token, the cache
afterwards, and whether an authentication call was issued. -/
structure SessionResult where
  token : String
  cache : SessionCache
  authCalled : Bool
deriving Repr, DecidableEq

/-- Function `rfms_get_session` from `src/app.py`: under the lock, reuse the cached
token when it expires more than 60 seconds from now; otherwise authenticate.
On success with a nonempty token, cache it with expiry `now + 1200`
(20 minutes); on any failure or missing token field, return `""` and leave
the cache untouched. -/
def rfms_get_session (now : Nat) (auth : AuthOutcome) (s : SessionCache) :
    SessionResult :=
  if s.token ≠ "" ∧ s.expires > now + 60 then
    { token := s.token, cache := s, authCalled := false }
  else
    match auth with
    | .ok t =>
        if t = "" then { token := "", cache := s, authCalled := true }
        else { token := t, cache := { token := t, expires := now + 1200 },
               authCalled := true }
    | .fail => { token := "", cache := s, authCalled := true }

/-! ### CRM client response handling (`rfms_call`) -/

/-- Response bodies are modelled as string-valued association lists: the only
body accesses in `rfms_call` are `body.get("message")` / `body.get("error")`. -/
abbrev Body := List (String × String)

/-- An HTTP response as seen by `rfms_call`: its raw content, whether its
declared `Content-Type` is JSON (recorded but, notably, never inspected by
the code), the success flag `resp.ok`, the status code and reason phrase. -/
structure HttpResponse where
  content : String
  contentTypeJson : Bool
  ok : Bool
  statusCode : Nat
  reason : String
deriving Repr, DecidableEq

/-- Python truthiness fallback `a or b` for an optional string. -/
def orFalsy : Option String → String → String
  | some s, d => if s = "" then d else s
  | none, d => d

/-- The response-handling tail of `rfms_call` in `src/app.py`, parametrised
by the JSON parser (`resp.json()`, `none` modelling a raised parse error):
`body = resp.json() if resp.content else {}`; a raised parse error is caught
by the surrounding `except` and wrapped as a `"RFMS request failed: ..."`
error value; on non-success status the message is extracted as
`body.get("message") or body.get("error") or resp.reason or str(resp.status_code)`. -/
def rfms_call_response (parseJson : String → Option Body)
    (resp : HttpResponse) : Option Body × String :=
  match (if resp.content = "" then some ([] : Body)
         else parseJson resp.content) with
  | none => (none, "RFMS request failed: JSON parse error")
  | some body =>
      if resp.ok then (some body, "")
      else
        let msg := orFalsy (body.lookup "message")
          (orFalsy (body.lookup "error")
            (if resp.reason = "" then toString resp.statusCode
             else resp.reason))
        (some body,
         "RFMS error " ++ toString resp.statusCode ++ ": " ++ msg)

/-- The response-handling policy as the specification words it ("if the
response's declared content type is JSON, parse it (empty body on no
content); otherwise wrap the raw text (truncated to a bounded length, e.g.
2000 characters)"), written for comparison with `rfms_call_response`. -/
def rfms_call_response_specced (parseJson : String → Option Body)
    (resp : HttpResponse) : Option Body × String :=
  let body? :=
    if resp.contentTypeJson then
      if resp.content = "" then some ([] : Body) else parseJson resp.content
    else some [("raw", ⟨resp.content.data.take 2000⟩)]
  match body? with
  | none => (none, "RFMS request failed: JSON parse error")
  | some body =>
      if resp.ok then (some body, "")
      else
        let msg := orFalsy (body.lookup "message")
          (orFalsy (body.lookup "error")
            (if resp.reason = "" then toString resp.statusCode
             else resp.reason))
        (some body,
         "RFMS error " ++ toString resp.statusCode ++ ": " ++ msg)

/-- Python `str.strip()` as used throughout the handlers: drop leading and
trailing whitespace.  (Structural recursion over the character list, so
concrete instances evaluate inside proofs; extensionally this is
`String.trim`.) -/
def pyStrip (s : String) : String :=
  ⟨((s.data.dropWhile Char.isWhitespace).reverse.dropWhile
      Char.isWhitespace).reverse⟩

/-! ### Booking creation (`create_booking`) -/

/-- The JSON payload of `POST /api/bookings`.  String fields read with
`data.get(key, "")` are plain strings (an omitted key is `""`);
`estimator_id` is read with no default, so it may be absent; `rooms` is read
with `data.get("rooms", 1)`, so an omitted value is modelled by the caller
passing `1`. -/
structure CreatePayload where
  date : String
  time_slot : String
  estimator_id : Option Nat
  first_name : String
  last_name : String
  phone : String
  email : String
  address : String
  city : String
  state : String
  zip : String
  flooring_type : String
  rooms : Int
  notes : String
  created_by : String
deriving Repr, DecidableEq

/-- Python truthiness of the `estimator_id` value inside
`all([date, time_slot, estimator_id, ...])`: absent (`None`) and `0` are
falsy. -/
def truthyOptNat : Option Nat → Bool
  | some n => n != 0
  | none => false

/-- The `all([...])` required-fields check of `create_booking`, after the
`.strip()` calls. -/
def createValid (r : CreatePayload) : Bool :=
  (pyStrip r.date) != "" && (pyStrip r.time_slot) != "" && truthyOptNat r.estimator_id
    && (pyStrip r.first_name) != "" && (pyStrip r.last_name) != "" && (pyStrip r.phone) != ""

/-- True when `SELECT id FROM bookings WHERE date=? AND time_slot=? AND estimator_id=?`
found a row — also exactly the condition under which the
`UNIQUE(date, time_slot, estimator_id)` constraint makes the `INSERT` raise
`sqlite3.IntegrityError`. -/
def tripleConflict (l : List Booking) (date time_slot : String) (eid : Nat) :
    Bool :=
  l.any fun b =>
    b.date == date && b.time_slot == time_slot && b.estimator_id == eid

/-- The results the three RFMS helper calls would return when actually
issued: `rfms_find_customer` (id or `""`), `rfms_create_customer` and
`rfms_create_estimate` (each an `(id, err)` pair).  They are parameters
because they are network effects. -/
structure CrmOutcomes where
  findCustomer : String
  createCustomer : String × String
  createEstimate : String × String
deriving Repr, DecidableEq

/-- The `if RFMS_ENABLED:` block of `create_booking`: search by phone
(`rfms_find_customer` short-circuits to `""` on an empty phone), else create
the customer, then create the estimate if a customer id was obtained;
accumulate the human-readable log fragments.  Returns
`(rfms_cust_id, rfms_est_id, rfms_log_parts)`. -/
def crmSync (rfmsEnabled : Bool) (crm : CrmOutcomes) (phone : String) :
    String × String × List String :=
  if rfmsEnabled then
    let found := if phone = "" then "" else crm.findCustomer
    let cidParts :=
      if found != "" then (found, ["Found existing RFMS customer: " ++ found])
      else
        let nid := crm.createCustomer.1
        if nid != "" then (nid, ["Created RFMS customer: " ++ nid])
        else ("", ["RFMS customer creation failed: " ++ crm.createCustomer.2])
    let cid := cidParts.1
    let parts := cidParts.2
    if cid != "" then
      let eidv := crm.createEstimate.1
      if eidv != "" then
        (cid, eidv, parts ++ ["Created RFMS estimate: " ++ eidv])
      else
        (cid, "", parts ++ ["RFMS estimate creation failed: "
                             ++ crm.createEstimate.2])
    else ("", "", parts)
  else ("", "", [])

/-- The row the `INSERT INTO bookings` statement of `create_booking`
writes: required fields stripped, optional fields as read from the payload,
the CRM ids obtained by the sync phase (empty when none). -/
def mkBookingRow (bid : Nat) (now : String) (r : CreatePayload)
    (cid estid : String) : Booking :=
  { id := bid, date := (pyStrip r.date), time_slot := (pyStrip r.time_slot),
    estimator_id := r.estimator_id.getD 0,
    first_name := (pyStrip r.first_name), last_name := (pyStrip r.last_name),
    phone := (pyStrip r.phone), email := r.email, address := r.address,
    city := r.city, state := r.state, zip := r.zip,
    flooring_type := r.flooring_type, rooms := r.rooms, notes := r.notes,
    created_at := now, created_by := (pyStrip r.created_by),
    rfms_customer_id := cid, rfms_estimate_id := estid }

/-- The `"Created"` audit entry of `create_booking`: actor is the stripped
`created_by` or `"Unknown"`, details are `"Estimate created"` with the CRM
log fragments joined on after a period when any exist. -/
def mkCreatedLog (bid : Nat) (now : String) (r : CreatePayload)
    (parts : List String) : LogEntry :=
  { booking_id := bid, action := "Created",
    changed_by := if (pyStrip r.created_by) = "" then "Unknown"
                  else (pyStrip r.created_by),
    details := if parts.isEmpty then "Estimate created"
               else "Estimate created. " ++ String.intercalate "; " parts,
    created_at := now }

/-- The `try: INSERT ... except sqlite3.IntegrityError` tail of
`create_booking`: the uniqueness constraint is checked by the store at
insert time and a violation is converted to the same 409 rejection; on
success the booking row and its `"Created"` log entry are written. -/
def insertPhase (now : String) (r : CreatePayload) (cid estid : String)
    (parts : List String) (st : DbState) : ApiResult × DbState :=
  if tripleConflict st.bookings (pyStrip r.date) (pyStrip r.time_slot)
       (r.estimator_id.getD 0) then
    (.err 409 "Slot just booked by someone else. Please refresh.", st)
  else
    (.created st.next_booking_id (cid != "") parts,
     { st with
         bookings := st.bookings ++
           [mkBookingRow st.next_booking_id now r cid estid],
         booking_log := st.booking_log ++
           [mkCreatedLog st.next_booking_id now r parts],
         next_booking_id := st.next_booking_id + 1 })

/-- Handler `create_booking` from `src/app.py`: validate required fields, run the
pre-insert conflict lookup (the fast path), run the RFMS sync block, then
insert under the uniqueness constraint (`insertPhase`). -/
def create_booking (rfmsEnabled : Bool) (crm : CrmOutcomes) (now : String)
    (r : CreatePayload) (st : DbState) : ApiResult × DbState :=
  if !createValid r then (.err 400 "Missing required fields.", st)
  else if tripleConflict st.bookings (pyStrip r.date) (pyStrip r.time_slot)
            (r.estimator_id.getD 0) then
    (.err 409 "This slot was already booked. Please refresh.", st)
  else
    let sync := crmSync rfmsEnabled crm (pyStrip r.phone)
    insertPhase now r sync.1 sync.2.1 sync.2.2 st

/-! ### Booking edit (`update_booking`) -/

/-- The JSON payload of `PUT /api/bookings/<bid>`.  Name/phone/actor are
read with `data.get(key, "")`; the other fields appear both in the diff
(default `""`) and in the `UPDATE` (default `""`, `rooms` default `1`), so
their presence matters and they are `Option`s.  `date`, `time_slot` and
`estimator_id` keys may be present in the payload but the handler never
reads them. -/
structure UpdatePayload where
  first_name : String
  last_name : String
  phone : String
  email : Option String
  address : Option String
  city : Option String
  state : Option String
  zip : Option String
  flooring_type : Option String
  rooms : Option Int
  notes : Option String
  edited_by : String
  date : Option String
  time_slot : Option String
  estimator_id : Option Nat
deriving Repr, DecidableEq

/-- Python `str(r or "")` for the integer `rooms` column: `0` is falsy. -/
def pyStrOrEmptyInt (r : Int) : String := if r = 0 then "" else toString r

/-- The field-by-field diff of `update_booking`: for each field in the fixed
list, compare `str(old[key] or "")` with `str(data.get(key, "") or "")` and
emit a `Label: "old" -> "new"` fragment on mismatch. -/
def diffFields (old : Booking) (d : UpdatePayload) : List String :=
  let cand : List (String × String × String) :=
    [("First Name", old.first_name, d.first_name),
     ("Last Name", old.last_name, d.last_name),
     ("Phone", old.phone, d.phone),
     ("Email", old.email, d.email.getD ""),
     ("Address", old.address, d.address.getD ""),
     ("City", old.city, d.city.getD ""),
     ("State", old.state, d.state.getD ""),
     ("ZIP", old.zip, d.zip.getD ""),
     ("Flooring", old.flooring_type, d.flooring_type.getD ""),
     ("Rooms", pyStrOrEmptyInt old.rooms,
       match d.rooms with | none => "" | some r => pyStrOrEmptyInt r),
     ("Notes", old.notes, d.notes.getD "")]
  (cand.filter fun c => c.2.1 != c.2.2).map fun c =>
    c.1 ++ ": \"" ++ c.2.1 ++ "\" -> \"" ++ c.2.2 ++ "\""

/-- The `UPDATE bookings SET ...` statement of `update_booking`: only the
contact/job columns are assigned; `date`, `time_slot`, `estimator_id`,
`created_at`, `created_by` and the RFMS ids are not in the SET list. -/
def applyUpdate (d : UpdatePayload) (b : Booking) : Booking :=
  { b with first_name := (pyStrip d.first_name), last_name := (pyStrip d.last_name),
           phone := (pyStrip d.phone), email := d.email.getD "",
           address := d.address.getD "", city := d.city.getD "",
           state := d.state.getD "", zip := d.zip.getD "",
           flooring_type := d.flooring_type.getD "",
           rooms := d.rooms.getD 1, notes := d.notes.getD "" }

/-- Handler `update_booking` from `src/app.py`: 404 if the row is absent, 400 if
name or phone is empty after trimming; otherwise diff, update the row,
append the fixed RFMS fragment when enabled and a customer id is stored
(the CRM update call itself is fire-and-forget and does not affect state),
and append the `"Edited"` log entry. -/
def update_booking (rfmsEnabled : Bool) (now : String) (bid : Nat)
    (d : UpdatePayload) (st : DbState) : ApiResult × DbState :=
  match st.bookings.find? (fun b => b.id == bid) with
  | none => (.err 404 "Booking not found.", st)
  | some old =>
    if (pyStrip d.first_name) = "" ∨ (pyStrip d.last_name) = "" ∨ (pyStrip d.phone) = ""
    then (.err 400 "Name and phone are required.", st)
    else
      let changes := diffFields old d
      let bookings1 := st.bookings.map fun b =>
        if b.id == bid then applyUpdate d b else b
      let changes1 :=
        if rfmsEnabled && old.rfms_customer_id != "" then
          changes ++ ["RFMS customer record updated"]
        else changes
      let detail :=
        if changes1.isEmpty then "Opened and saved (no changes)"
        else String.intercalate "; " changes1
      let edited_by :=
        if (pyStrip d.edited_by) = "" then "Unknown" else (pyStrip d.edited_by)
      (.ok, { st with bookings := bookings1,
                      booking_log := st.booking_log ++
                        [{ booking_id := bid, action := "Edited",
                           changed_by := edited_by, details := detail,
                           created_at := now }] })

/-! ### Booking cancellation (`delete_booking`) -/

/-- First statement of `delete_booking`: insert the `"Cancelled"` log
entry. -/
def cancelLogStep (now : String) (bid : Nat) (actor : String)
    (st : DbState) : DbState :=
  { st with booking_log := st.booking_log ++
      [{ booking_id := bid, action := "Cancelled", changed_by := actor,
         details := "Estimate cancelled", created_at := now }] }

/-- Second statement of `delete_booking`: `DELETE FROM bookings WHERE id=?`. -/
def deleteRowStep (bid : Nat) (st : DbState) : DbState :=
  { st with bookings := st.bookings.filter fun b => b.id != bid }

/-- Handler `delete_booking` from `src/app.py`: the actor is
`data.get("deleted_by", "Unknown")` (the body itself may be absent); the
log entry is written first, then the row is deleted; the handler never
checks that the booking exists. -/
def delete_booking (now : String) (bid : Nat) (deleted_by : Option String)
    (st : DbState) : ApiResult × DbState :=
  let actor := deleted_by.getD "Unknown"
  (.ok, deleteRowStep bid (cancelLogStep now bid actor st))

/-! ### Time off (`create_timeoff`, and the exclusion predicate) -/

/-- The JSON payload of `POST /api/timeoff`.  `label` is read with
`data.get("label", "Off")`; `day_of_week` with no default (may be absent);
`dates` with default `[]`. -/
structure TimeOffPayload where
  estimator_id : Nat
  recurring : Bool
  label : Option String
  day_of_week : Option Nat
  dates : List String
deriving Repr, DecidableEq

/-- SQL `column = ?` comparison on a nullable integer column: `NULL` on
either side never matches. -/
def sqlEqNat : Option Nat → Option Nat → Bool
  | some a, some b => a == b
  | _, _ => false

/-- One iteration of the `for d in dates:` loop of `create_timeoff`:
insert a one-off row for date `d` unless a matching one-off row already
exists (idempotent). -/
def oneOffStep (estimator_id : Nat) (lbl : String) (acc : DbState)
    (d : String) : DbState :=
  if acc.time_off.any (fun t =>
       t.estimator_id == estimator_id && t.date == some d
         && !t.recurring) then acc
  else
    { acc with
        time_off := acc.time_off ++
          [{ id := acc.next_timeoff_id, estimator_id := estimator_id,
             date := some d, day_of_week := none, label := lbl,
             recurring := false }],
        next_timeoff_id := acc.next_timeoff_id + 1 }

/-- Handler `create_timeoff` from `src/app.py`: for a recurring request, delete all
recurring rows of the same estimator and day-of-week, then insert the new
row; for a one-off request, insert each listed date unless a matching
one-off row already exists (idempotent). -/
def create_timeoff (p : TimeOffPayload) (st : DbState) :
    ApiResult × DbState :=
  let lbl := p.label.getD "Off"
  if p.recurring then
    let kept := st.time_off.filter fun t =>
      !(t.estimator_id == p.estimator_id && t.recurring
          && sqlEqNat t.day_of_week p.day_of_week)
    (.ok,
     { st with
         time_off := kept ++
           [{ id := st.next_timeoff_id, estimator_id := p.estimator_id,
              date := none, day_of_week := p.day_of_week, label := lbl,
              recurring := true }],
         next_timeoff_id := st.next_timeoff_id + 1 })
  else
    (.ok, p.dates.foldl (oneOffStep p.estimator_id lbl) st)

/-- Handler for `DELETE /api/timeoff/<tid>`. -/
def delete_timeoff (tid : Nat) (st : DbState) : ApiResult × DbState :=
  (.ok, { st with time_off := st.time_off.filter fun t => t.id != tid })

/-- Split a character list on `-` separators (structural recursion, so
concrete dates evaluate inside proofs). -/
def splitDash : List Char → List (List Char)
  | [] => [[]]
  | c :: cs =>
      if c = '-' then [] :: splitDash cs
      else
        match splitDash cs with
        | [] => [[c]]
        | g :: gs => (c :: g) :: gs

/-- Read a nonempty all-digit character group as a number. -/
def digitsToNat? (cs : List Char) : Option Nat :=
  if cs ≠ [] ∧ cs.all Char.isDigit then
    some (cs.foldl (fun n c => 10 * n + (c.toNat - 48)) 0)
  else none

/-- Parse an ISO `YYYY-MM-DD` date string into (year, month, day). -/
def parseISODate (s : String) : Option (Nat × Nat × Nat) :=
  match (splitDash s.data).map digitsToNat? with
  | [some y, some m, some d] => some (y, m, d)
  | _ => none

/-- Day of week of a Gregorian date by Zeller's congruence, renumbered to
the repository's convention 0 = Monday .. 6 = Sunday. -/
def zellerDayOfWeek (y m d : Nat) : Nat :=
  let yy := if m < 3 then y - 1 else y
  let mm := if m < 3 then m + 12 else m
  let k := yy % 100
  let j := yy / 100
  let h := (d + (13 * (mm + 1)) / 5 + k + k / 4 + j / 4 + 5 * j) % 7
  (h + 5) % 7

/-- Day of week of an ISO date string, `none` when the string does not
parse. -/
def dayOfWeekOfDate (s : String) : Option Nat :=
  (parseISODate s).map fun t => zellerDayOfWeek t.1 t.2.1 t.2.2

/-- Modelled from the spec: the exclusion predicate
`is_excluded(estimator_id, date)` / `is_time_off(estimator_id, date)`.
`src/app.py` only exposes the raw `time_off` rows (`get_timeoff`); the
predicate that combines them is computed outside `src/`, so it is written
here from the spec's contract: true iff a one-off row exists for exactly
that estimator and calendar date, or a recurring row exists for that
estimator and the date's day-of-week. -/
def is_time_off (st : DbState) (estimator_id : Nat) (date : String) : Bool :=
  st.time_off.any fun t =>
    t.estimator_id == estimator_id &&
      (if t.recurring then sqlEqNat t.day_of_week (dayOfWeekOfDate date)
       else t.date == some date)

/-! ### Conflict and uniqueness predicates -/

/-- Two bookings occupy the same slot: equal `(date, time_slot,
estimator_id)` triple. -/
def sameSlot (a b : Booking) : Prop :=
  a.date = b.date ∧ a.time_slot = b.time_slot ∧ a.estimator_id = b.estimator_id

instance (a b : Booking) : Decidable (sameSlot a b) := by
  unfold sameSlot; infer_instance

instance : DecidableRel fun a b : Booking => ¬ sameSlot a b :=
  fun _ _ => instDecidableNot

/-- The engine's core invariant, mirroring
`UNIQUE(date, time_slot, estimator_id)`: no two rows of the `bookings`
table share a slot triple. -/
def tripleUnique (l : List Booking) : Prop :=
  l.Pairwise fun a b => ¬ sameSlot a b

instance (l : List Booking) : Decidable (tripleUnique l) := by
  unfold tripleUnique; infer_instance

/-- Two time-off rows are duplicate recurring entries: both recurring, same
estimator, same non-null day-of-week. -/
def sameRecurringSlot (a b : TimeOffEntry) : Prop :=
  a.recurring = true ∧ b.recurring = true
    ∧ a.estimator_id = b.estimator_id
    ∧ a.day_of_week = b.day_of_week ∧ a.day_of_week ≠ none

instance (a b : TimeOffEntry) : Decidable (sameRecurringSlot a b) := by
  unfold sameRecurringSlot; infer_instance

instance : DecidableRel fun a b : TimeOffEntry => ¬ sameRecurringSlot a b :=
  fun _ _ => instDecidableNot

/-- At most one recurring time-off row per (estimator, day-of-week) pair. -/
def recurringUnique (l : List TimeOffEntry) : Prop :=
  l.Pairwise fun a b => ¬ sameRecurringSlot a b

instance (l : List TimeOffEntry) : Decidable (recurringUnique l) := by
  unfold recurringUnique; infer_instance

/-! ### Concrete fixtures used by counterexamples and witnesses -/

/-- An empty database, as `init_db` leaves the three modelled tables. -/
def emptyDb : DbState :=
  { bookings := [], booking_log := [], time_off := [],
    next_booking_id := 1, next_timeoff_id := 1 }

/-- CRM outcomes where every call fails with an empty id (also what the
helpers would produce when never invoked). -/
def crmNone : CrmOutcomes :=
  { findCustomer := "", createCustomer := ("", "Not configured"),
    createEstimate := ("", "Not configured") }

/-- CRM outcomes where every call succeeds, to contrast with `crmNone`. -/
def crmAll : CrmOutcomes :=
  { findCustomer := "C77", createCustomer := ("C88", ""),
    createEstimate := ("E99", "") }

/-- A valid booking-creation request (the spec's scenario booking A). -/
def reqA : CreatePayload :=
  { date := "2024-06-01", time_slot := "9-11", estimator_id := some 7,
    first_name := "Jane", last_name := "Doe", phone := "555-0100",
    email := "", address := "", city := "", state := "", zip := "",
    flooring_type := "", rooms := 1, notes := "", created_by := "" }

/-- A second request for the same slot triple with a different customer. -/
def reqB : CreatePayload :=
  { reqA with first_name := "John", phone := "555-0200" }

/-- A stored booking carrying a CRM customer id. -/
def bookingA : Booking :=
  { id := 1, date := "2024-06-01", time_slot := "9-11", estimator_id := 7,
    first_name := "Jane", last_name := "Doe", phone := "555-0100",
    email := "j@example.com", address := "1 Main", city := "Springfield",
    state := "IL", zip := "62701", flooring_type := "Tile", rooms := 3,
    notes := "gate code 4321", created_at := "t0", created_by := "alice",
    rfms_customer_id := "RF1", rfms_estimate_id := "E1" }

/-- A one-booking database holding `bookingA`. -/
def dbA : DbState := { emptyDb with bookings := [bookingA], next_booking_id := 2 }

/-- An edit payload repeating every diffed field of `bookingA` verbatim
(a "no changes" save), with re-scheduling keys present in the payload. -/
def editSame : UpdatePayload :=
  { first_name := "Jane", last_name := "Doe", phone := "555-0100",
    email := some "j@example.com", address := some "1 Main",
    city := some "Springfield", state := some "IL", zip := some "62701",
    flooring_type := some "Tile", rooms := some 3,
    notes := some "gate code 4321", edited_by := "bob",
    date := some "2030-01-01", time_slot := some "1-3",
    estimator_id := some 99 }

/-- An edit payload omitting every optional field. -/
def editOmit : UpdatePayload :=
  { first_name := "Jane", last_name := "Doe", phone := "555-0100",
    email := none, address := none, city := none, state := none,
    zip := none, flooring_type := none, rooms := none, notes := none,
    edited_by := "", date := none, time_slot := none,
    estimator_id := none }

/-- A database with one recurring Wednesday entry for estimator 7. -/
def dbTimeOff : DbState :=
  { emptyDb with
      time_off := [{ id := 1, estimator_id := 7, date := none,
                     day_of_week := some 2, label := "Off",
                     recurring := true }],
      next_timeoff_id := 2 }

/-- A recurring Wednesday time-off request for estimator 7. -/
def timeOffWed : TimeOffPayload :=
  { estimator_id := 7, recurring := true, label := some "Vacation",
    day_of_week := some 2, dates := [] }

/-- A JSON parser stub that fails on every body. -/
def parseNever : String → Option Body := fun _ => none

/-- A non-JSON HTTP success response with a plain-text body. -/
def respText : HttpResponse :=
  { content := "hello", contentTypeJson := false, ok := true,
    statusCode := 200, reason := "OK" }

/-- A JSON parser stub that accepts only the body `"x"`. -/
def parseOnlyX : String → Option Body :=
  fun s => if s = "x" then some [("message", "boom")] else none

/-- A failing JSON error response whose body is `"x"`. -/
def respErr : HttpResponse :=
  { content := "x", contentTypeJson := true, ok := false,
    statusCode := 500, reason := "Server Error" }

/-! ### Helper lemmas -/

/-- Filtering a mapped list equals filtering the original when the map
fixes every element the filter keeps and never changes the predicate. -/
theorem filter_map_of_fix {α : Type} (p : α → Bool) (f : α → α)
    (l : List α) (hp : ∀ a, p (f a) = p a)
    (hfix : ∀ a, p a = true → f a = a) :
    (l.map f).filter p = l.filter p := by
  induction l with
  | nil => rfl
  | cons a l ih =>
      simp only [List.map_cons, List.filter_cons, hp a]
      cases hpa : p a with
      | false => simpa using ih
      | true => rw [hfix a hpa]; simpa using ih

/-- The per-row update of `update_booking` never changes a row's id, slot
triple, or — on rows with a different id — anything at all. -/
theorem updateRow_frame (d : UpdatePayload) (bid : Nat) (b : Booking) :
    ((if b.id == bid then applyUpdate d b else b).id = b.id)
    ∧ ((if b.id == bid then applyUpdate d b else b).date = b.date)
    ∧ ((if b.id == bid then applyUpdate d b else b).time_slot = b.time_slot)
    ∧ ((if b.id == bid then applyUpdate d b else b).estimator_id
        = b.estimator_id) := by
  by_cases h : b.id == bid <;> simp [h, applyUpdate]

/-- The CRM sync block is skipped entirely when the integration is
disabled. -/
theorem crmSync_disabled (crm : CrmOutcomes) (phone : String) :
    crmSync false crm phone = ("", "", []) := rfl

/-- With no conflicting row, `insertPhase` inserts the row and the log
entry and reports creation. -/
theorem insertPhase_free (now : String) (r : CreatePayload)
    (cid estid : String) (parts : List String) (st : DbState)
    (hfree : tripleConflict st.bookings (pyStrip r.date) (pyStrip r.time_slot)
      (r.estimator_id.getD 0) = false) :
    insertPhase now r cid estid parts st
      = (.created st.next_booking_id (cid != "") parts,
         { st with
             bookings := st.bookings ++
               [mkBookingRow st.next_booking_id now r cid estid],
             booking_log := st.booking_log ++
               [mkCreatedLog st.next_booking_id now r parts],
             next_booking_id := st.next_booking_id + 1 }) := by
  unfold insertPhase
  rw [hfree]
  rfl

/-- With a conflicting row present, `insertPhase` converts the integrity
violation into the 409 rejection and leaves the state unchanged. -/
theorem insertPhase_conflict (now : String) (r : CreatePayload)
    (cid estid : String) (parts : List String) (st : DbState)
    (hc : tripleConflict st.bookings (pyStrip r.date) (pyStrip r.time_slot)
      (r.estimator_id.getD 0) = true) :
    insertPhase now r cid estid parts st
      = (.err 409 "Slot just booked by someone else. Please refresh.", st) := by
  unfold insertPhase
  rw [hc]
  rfl

/-- A valid, conflict-free request reaches the insert phase with the CRM
sync results. -/
theorem create_booking_eq_insertPhase (rfE : Bool) (crm : CrmOutcomes)
    (now : String) (r : CreatePayload) (st : DbState)
    (hv : createValid r = true)
    (hfree : tripleConflict st.bookings (pyStrip r.date) (pyStrip r.time_slot)
      (r.estimator_id.getD 0) = false) :
    create_booking rfE crm now r st
      = insertPhase now r (crmSync rfE crm (pyStrip r.phone)).1
          (crmSync rfE crm (pyStrip r.phone)).2.1
          (crmSync rfE crm (pyStrip r.phone)).2.2 st := by
  unfold create_booking
  rw [hv, hfree]
  rfl

/-- The freshly inserted row occupies exactly the request's slot triple, so
a second lookup of the same triple finds it. -/
theorem tripleConflict_after_insert (l : List Booking) (b : Booking)
    (date time_slot : String) (eid : Nat)
    (hd : b.date = date) (ht : b.time_slot = time_slot)
    (he : b.estimator_id = eid) :
    tripleConflict (l ++ [b]) date time_slot eid = true := by
  unfold tripleConflict
  rw [List.any_eq_true]
  exact ⟨b, List.mem_append_right _ (List.mem_singleton.2 rfl),
    by simp [hd, ht, he]⟩

/-- A failed conflict lookup means no stored row matches the triple. -/
theorem tripleConflict_false_iff (l : List Booking) (date time_slot : String)
    (eid : Nat) :
    tripleConflict l date time_slot eid = false ↔
      ∀ b ∈ l, ¬(b.date = date ∧ b.time_slot = time_slot
        ∧ b.estimator_id = eid) := by
  unfold tripleConflict
  rw [List.any_eq_false]
  constructor
  · intro h b hb hcontra
    exact h b hb (by simp [hcontra.1, hcontra.2.1, hcontra.2.2])
  · intro h b hb hcontra
    simp only [Bool.and_eq_true, beq_iff_eq] at hcontra
    exact h b hb ⟨hcontra.1.1, hcontra.1.2, hcontra.2⟩

/-! ### Claim theorems -/

/-- C5: `rfms_get_session` returns a cached token untouched (no
authentication call, cache unchanged) whenever its recorded expiry is more
than 60 seconds past `now`; on a fresh successful authentication it caches
the token with expiry exactly `now + 1200` (20 minutes); on an
authentication failure or a response missing the token field it returns the
empty token and leaves the cache unmodified. -/
theorem rfms_get_session_cache_policy (now : Nat) (auth : AuthOutcome)
    (s : SessionCache) :
    (s.token ≠ "" → s.expires > now + 60 →
       rfms_get_session now auth s
         = { token := s.token, cache := s, authCalled := false })
    ∧ (∀ t, ¬(s.token ≠ "" ∧ s.expires > now + 60) → t ≠ "" →
       rfms_get_session now (.ok t) s
         = { token := t, cache := { token := t, expires := now + 1200 },
             authCalled := true })
    ∧ (¬(s.token ≠ "" ∧ s.expires > now + 60) →
       rfms_get_session now .fail s
         = { token := "", cache := s, authCalled := true })
    ∧ (¬(s.token ≠ "" ∧ s.expires > now + 60) →
       rfms_get_session now (.ok "") s
         = { token := "", cache := s, authCalled := true }) := by
  refine ⟨fun h1 h2 => ?_, fun t hmiss ht => ?_, fun hmiss => ?_,
    fun hmiss => ?_⟩
  · unfold rfms_get_session; rw [if_pos ⟨h1, h2⟩]
  · unfold rfms_get_session; rw [if_neg hmiss]; simp [ht]
  · unfold rfms_get_session; rw [if_neg hmiss]
  · unfold rfms_get_session; rw [if_neg hmiss]; simp

/-- C5 witness: the three policy branches at concrete inputs — a live
cached token survives a failed-auth environment untouched, a stale cache is
refreshed to expiry 500 + 1200, and a failed refresh leaves the stale cache
unmodified. -/
theorem rfms_get_session_cache_policy_witness :
    (("tok" : String) ≠ "" ∧ (1000 : Nat) > 100 + 60
      ∧ rfms_get_session 100 .fail { token := "tok", expires := 1000 }
          = { token := "tok", cache := { token := "tok", expires := 1000 },
              authCalled := false })
    ∧ (rfms_get_session 500 (.ok "fresh") { token := "", expires := 0 }
          = { token := "fresh",
              cache := { token := "fresh", expires := 1700 },
              authCalled := true })
    ∧ (rfms_get_session 500 .fail { token := "", expires := 0 }
          = { token := "", cache := { token := "", expires := 0 },
              authCalled := true }) := by
  refine ⟨⟨by decide, by decide, ?_⟩, ?_, ?_⟩
  · exact (rfms_get_session_cache_policy 100 .fail
      { token := "tok", expires := 1000 }).1 (by decide) (by decide)
  · exact (rfms_get_session_cache_policy 500 (.ok "fresh")
      { token := "", expires := 0 }).2.1 "fresh" (by decide) (by decide)
  · exact (rfms_get_session_cache_policy 500 .fail
      { token := "", expires := 0 }).2.2.1 (by decide)

/-- C9: for every booking id — including ids with no stored row — the
cancel handler returns success (never a not-found error), appends exactly
one `"Cancelled"` log entry whose actor defaults to `"Unknown"`, and
factors as the log insert followed by the row delete, so the entry is
written before the row (if any) disappears. -/
theorem delete_booking_always_cancels (now : String) (bid : Nat)
    (deleted_by : Option String) (st : DbState) :
    (delete_booking now bid deleted_by st).1 = ApiResult.ok
    ∧ (delete_booking now bid deleted_by st).2.booking_log
        = st.booking_log ++
          [{ booking_id := bid, action := "Cancelled",
             changed_by := deleted_by.getD "Unknown",
             details := "Estimate cancelled", created_at := now }]
    ∧ (delete_booking now bid deleted_by st).2.bookings
        = st.bookings.filter (fun b => b.id != bid)
    ∧ (delete_booking now bid deleted_by st).2
        = deleteRowStep bid
            (cancelLogStep now bid (deleted_by.getD "Unknown") st)
    ∧ (delete_booking now bid none st).2.booking_log
        = st.booking_log ++
          [{ booking_id := bid, action := "Cancelled",
             changed_by := "Unknown", details := "Estimate cancelled",
             created_at := now }] :=
  ⟨rfl, rfl, rfl, rfl, rfl⟩

/-- Frame equalities of the edit handler: the slot-triple projection of
the table and every row with a different id are preserved. -/
theorem update_booking_frame_eqs (rfE : Bool) (now : String)
    (bid : Nat) (d : UpdatePayload) (st : DbState) :
    ((update_booking rfE now bid d st).2.bookings.map
        (fun b => (b.date, b.time_slot, b.estimator_id))
      = st.bookings.map (fun b => (b.date, b.time_slot, b.estimator_id)))
    ∧ ((update_booking rfE now bid d st).2.bookings.filter
        (fun b => b.id != bid)
      = st.bookings.filter (fun b => b.id != bid)) := by
  unfold update_booking
  cases hf : st.bookings.find? (fun b => b.id == bid) with
  | none => exact ⟨rfl, rfl⟩
  | some old =>
      dsimp only
      by_cases hreq : (pyStrip d.first_name) = "" ∨ (pyStrip d.last_name) = ""
          ∨ (pyStrip d.phone) = ""
      · rw [if_pos hreq]; exact ⟨rfl, rfl⟩
      · rw [if_neg hreq]
        simp only
        constructor
        · rw [List.map_map]
          exact List.map_congr_left fun b _ => by
            have h := updateRow_frame d bid b
            simp only [Function.comp_apply, h.2.1, h.2.2.1, h.2.2.2]
        · exact filter_map_of_fix _ _ _
            (fun b => by rw [(updateRow_frame d bid b).1])
            (fun b hb => by
              have h : (b.id == bid) = false := by simpa [bne] using hb
              simp [h])

/-- C2: the edit handler never changes any booking's `date`, `time_slot`
or `estimator_id` — the slot-triple projection of the table is preserved
verbatim, for every payload, including payloads carrying those keys — and
every booking other than the edited id is completely unchanged. -/
theorem update_booking_never_reschedules (rfE : Bool) (now : String)
    (bid : Nat) (d : UpdatePayload) (st : DbState) :
    ((update_booking rfE now bid d st).2.bookings.map
        (fun b => (b.date, b.time_slot, b.estimator_id))
      = st.bookings.map (fun b => (b.date, b.time_slot, b.estimator_id)))
    ∧ ((update_booking rfE now bid d st).2.bookings.filter
        (fun b => b.id != bid)
      = st.bookings.filter (fun b => b.id != bid)) :=
  update_booking_frame_eqs rfE now bid d st

/-- C3 counterexample: with CRM integration enabled and a booking that
carries a stored CRM customer id, an edit in which no diffed field changes
value appends a log entry whose details are
`"RFMS customer record updated"`, not the literal
`"Opened and saved (no changes)"`. -/
theorem update_booking_no_change_crm_details :
    diffFields bookingA editSame = []
    ∧ (update_booking true "t2" 1 editSame dbA).1 = ApiResult.ok
    ∧ ((update_booking true "t2" 1 editSame dbA).2.booking_log.map
         LogEntry.details) = ["RFMS customer record updated"]
    ∧ ((update_booking true "t2" 1 editSame dbA).2.booking_log.map
         LogEntry.details) ≠ ["Opened and saved (no changes)"] := by
  refine ⟨by decide, by decide, by decide, by decide⟩

/-- C4 counterexample: with CRM integration disabled, a valid conflict-free
creation succeeds with an empty CRM log-fragment list — the `"Created"`
entry's details are exactly `"Estimate created"`, with no fragment about
CRM sync at all — and empty stored CRM ids. -/
theorem create_booking_disabled_no_fragment :
    (create_booking false crmNone "t0" reqA emptyDb).1
      = ApiResult.created 1 false []
    ∧ ((create_booking false crmNone "t0" reqA emptyDb).2.booking_log.map
         LogEntry.details) = ["Estimate created"]
    ∧ ((create_booking false crmNone "t0" reqA emptyDb).2.bookings.map
         (fun b => (b.rfms_customer_id, b.rfms_estimate_id)))
        = [("", "")] := by
  refine ⟨by decide, by decide, by decide⟩

/-- C6 counterexample: on a non-JSON response the code still attempts a
JSON parse (it never inspects the declared content type) and a parse
failure is wrapped into a generic error value with the raw text lost,
whereas the specified policy would wrap the raw text with no error. -/
theorem rfms_call_response_content_type_divergence :
    rfms_call_response parseNever respText
      = (none, "RFMS request failed: JSON parse error")
    ∧ rfms_call_response_specced parseNever respText
      = (some [("raw", "hello")], "")
    ∧ rfms_call_response parseNever respText
        ≠ rfms_call_response_specced parseNever respText := by
  refine ⟨rfl, by decide, by decide⟩

/-- An `"RFMS error ..."` message is never the empty string. -/
theorem rfms_error_ne_empty (n : Nat) (msg : String) :
    ("RFMS error " ++ toString n ++ ": " ++ msg) ≠ "" := by
  intro h
  have hlen := congrArg String.length h
  rw [String.length_append, String.length_append, String.length_append]
    at hlen
  have h1 : ("RFMS error " : String).length = 11 := rfl
  have h2 : (": " : String).length = 2 := rfl
  have h3 : ("" : String).length = 0 := rfl
  omega

/-- C3 (amended): an edit in which no diffed field changes value appends an
`"Edited"` log entry with details exactly `"Opened and saved (no changes)"`
provided no CRM-update fragment is added (CRM integration disabled, or the
booking stores no CRM customer id); the edit succeeds. -/
theorem update_booking_no_change_literal_details (rfE : Bool) (now : String)
    (bid : Nat) (d : UpdatePayload) (st : DbState) (old : Booking)
    (hfind : st.bookings.find? (fun b => b.id == bid) = some old)
    (hn1 : pyStrip d.first_name ≠ "") (hn2 : pyStrip d.last_name ≠ "")
    (hn3 : pyStrip d.phone ≠ "")
    (hdiff : diffFields old d = [])
    (hnofrag : rfE = false ∨ old.rfms_customer_id = "") :
    (update_booking rfE now bid d st).1 = ApiResult.ok
    ∧ (update_booking rfE now bid d st).2.booking_log
        = st.booking_log ++
          [{ booking_id := bid, action := "Edited",
             changed_by := if pyStrip d.edited_by = "" then "Unknown"
                           else pyStrip d.edited_by,
             details := "Opened and saved (no changes)",
             created_at := now }] := by
  have hfalse : (rfE && old.rfms_customer_id != "") = false := by
    rcases hnofrag with h | h
    · rw [h]; rfl
    · rw [h]; simp
  unfold update_booking
  rw [hfind]
  dsimp only
  rw [if_neg (by push_neg; exact ⟨hn1, hn2, hn3⟩)]
  simp [hdiff, hfalse]

/-- C3 (amended) witness: the no-change edit of `bookingA` with CRM
disabled succeeds and logs the literal phrase. -/
theorem update_booking_no_change_literal_details_witness :
    (dbA.bookings.find? (fun b => b.id == 1) = some bookingA)
    ∧ diffFields bookingA editSame = []
    ∧ (update_booking false "t2" 1 editSame dbA).1 = ApiResult.ok
    ∧ (update_booking false "t2" 1 editSame dbA).2.booking_log
        = dbA.booking_log ++
          [{ booking_id := 1, action := "Edited", changed_by := "bob",
             details := "Opened and saved (no changes)",
             created_at := "t2" }] := by
  have h := update_booking_no_change_literal_details false "t2" 1 editSame
    dbA bookingA (by decide) (by decide) (by decide) (by decide) (by decide)
    (Or.inl rfl)
  refine ⟨by decide, by decide, h.1, ?_⟩
  rw [h.2]
  decide

/-- C4 (amended): with CRM integration disabled, every valid conflict-free
creation succeeds with empty `rfms_customer_id` / `rfms_estimate_id` stored
on the booking, `rfms_synced = false`, an empty CRM log-fragment list, a
`"Created"` log entry whose details are exactly `"Estimate created"` (no
CRM fragment is recorded), and a result identical under any two CRM
outcome environments — booking success never depends on CRM
reachability. -/
theorem create_booking_disabled_succeeds (crm crm2 : CrmOutcomes)
    (now : String) (r : CreatePayload) (st : DbState)
    (hv : createValid r = true)
    (hfree : tripleConflict st.bookings (pyStrip r.date)
      (pyStrip r.time_slot) (r.estimator_id.getD 0) = false) :
    (create_booking false crm now r st).1
      = ApiResult.created st.next_booking_id false []
    ∧ (create_booking false crm now r st).2.bookings
        = st.bookings ++ [mkBookingRow st.next_booking_id now r "" ""]
    ∧ (mkBookingRow st.next_booking_id now r "" "").rfms_customer_id = ""
    ∧ (mkBookingRow st.next_booking_id now r "" "").rfms_estimate_id = ""
    ∧ (create_booking false crm now r st).2.booking_log
        = st.booking_log ++
          [{ booking_id := st.next_booking_id, action := "Created",
             changed_by := if pyStrip r.created_by = "" then "Unknown"
                           else pyStrip r.created_by,
             details := "Estimate created", created_at := now }]
    ∧ create_booking false crm now r st
        = create_booking false crm2 now r st := by
  have he := create_booking_eq_insertPhase false crm now r st hv hfree
  have he2 := create_booking_eq_insertPhase false crm2 now r st hv hfree
  simp only [crmSync_disabled] at he he2
  have hi := insertPhase_free now r "" "" [] st hfree
  rw [he, hi]
  refine ⟨rfl, rfl, rfl, rfl, rfl, ?_⟩
  rw [he2]
  exact hi.symm

/-- C4 (amended) witness: creating the scenario booking with CRM disabled
in the empty database succeeds with id 1, no sync, and the same result
under an all-success CRM environment. -/
theorem create_booking_disabled_succeeds_witness :
    createValid reqA = true
    ∧ tripleConflict emptyDb.bookings (pyStrip reqA.date)
        (pyStrip reqA.time_slot) (reqA.estimator_id.getD 0) = false
    ∧ (create_booking false crmNone "t0" reqA emptyDb).1
        = ApiResult.created 1 false []
    ∧ create_booking false crmNone "t0" reqA emptyDb
        = create_booking false crmAll "t0" reqA emptyDb := by
  have h := create_booking_disabled_succeeds crmNone crmAll "t0" reqA
    emptyDb (by decide) (by decide)
  exact ⟨by decide, by decide, h.1, h.2.2.2.2.2⟩

/-- C6 (amended): the CRM client's response handling ignores the declared
content type entirely; an empty body parses to the empty object; a body
that fails to parse yields a generic wrapped error value (the raw text is
not preserved); a parsed body is returned with an empty error exactly on
HTTP success; and every non-success outcome is reported through a nonempty
error value, never an exception. -/
theorem rfms_call_response_error_values (pj : String → Option Body)
    (resp : HttpResponse) :
    (∀ b, rfms_call_response pj { resp with contentTypeJson := b }
        = rfms_call_response pj resp)
    ∧ (resp.content = "" → (rfms_call_response pj resp).1 = some [])
    ∧ (resp.content ≠ "" → pj resp.content = none →
        rfms_call_response pj resp
          = (none, "RFMS request failed: JSON parse error"))
    ∧ (∀ body, resp.content ≠ "" → pj resp.content = some body →
        (rfms_call_response pj resp).1 = some body
        ∧ ((rfms_call_response pj resp).2 = "" ↔ resp.ok = true))
    ∧ (resp.ok = false → (rfms_call_response pj resp).2 ≠ "") := by
  refine ⟨fun b => rfl, fun h => ?_, fun h hn => ?_, fun body h hb => ?_,
    fun hok => ?_⟩
  · unfold rfms_call_response
    rw [if_pos h]
    dsimp only
    split <;> rfl
  · unfold rfms_call_response
    rw [if_neg h, hn]
  · unfold rfms_call_response
    rw [if_neg h, hb]
    dsimp only
    by_cases hok : resp.ok = true
    · rw [if_pos hok]
      exact ⟨rfl, by simp [hok]⟩
    · rw [if_neg hok]
      refine ⟨rfl, ?_⟩
      constructor
      · intro hc
        exact absurd hc (rfms_error_ne_empty _ _)
      · intro hc
        exact absurd hc hok
  · unfold rfms_call_response
    cases hpj : (if resp.content = "" then some ([] : Body)
        else pj resp.content) with
    | none =>
        dsimp only
        intro hc
        have : ("RFMS request failed: JSON parse error" : String).length
            = 0 := by rw [hc]; rfl
        exact absurd this (by decide)
    | some body =>
        dsimp only
        rw [if_neg (by rw [hok]; exact Bool.false_ne_true)]
        exact rfms_error_ne_empty _ _

/-- C6 (amended) witness: a failing JSON response is parsed and surfaced
as a nonempty error value carrying the body's message. -/
theorem rfms_call_response_error_values_witness :
    (respErr.content ≠ ""
      ∧ parseOnlyX respErr.content = some [("message", "boom")]
      ∧ respErr.ok = false)
    ∧ (rfms_call_response parseOnlyX respErr).1 = some [("message", "boom")]
    ∧ (rfms_call_response parseOnlyX respErr).2 ≠ "" := by
  have h := rfms_call_response_error_values parseOnlyX respErr
  exact ⟨⟨by decide, by decide, by decide⟩,
    (h.2.2.2.1 [("message", "boom")] (by decide) (by decide)).1,
    h.2.2.2.2 (by decide)⟩

/-- C10: a successful edit overwrites every optional field omitted from the
payload with the empty string — and an omitted `rooms` with `1` — on the
edited booking, instead of preserving the previous values. -/
theorem update_booking_omitted_fields_reset (rfE : Bool) (now : String)
    (bid : Nat) (d : UpdatePayload) (st : DbState) (old : Booking)
    (hfind : st.bookings.find? (fun b => b.id == bid) = some old)
    (hn1 : pyStrip d.first_name ≠ "") (hn2 : pyStrip d.last_name ≠ "")
    (hn3 : pyStrip d.phone ≠ "")
    (hom : d.email = none ∧ d.address = none ∧ d.city = none
      ∧ d.state = none ∧ d.zip = none ∧ d.flooring_type = none
      ∧ d.rooms = none ∧ d.notes = none) :
    (update_booking rfE now bid d st).1 = ApiResult.ok
    ∧ ∀ b' ∈ (update_booking rfE now bid d st).2.bookings, b'.id = bid →
        b'.email = "" ∧ b'.address = "" ∧ b'.city = "" ∧ b'.state = ""
        ∧ b'.zip = "" ∧ b'.flooring_type = "" ∧ b'.notes = ""
        ∧ b'.rooms = 1 := by
  unfold update_booking
  rw [hfind]
  dsimp only
  rw [if_neg (by push_neg; exact ⟨hn1, hn2, hn3⟩)]
  refine ⟨rfl, ?_⟩
  intro b' hb' hid
  dsimp only at hb'
  rcases List.mem_map.1 hb' with ⟨b, hbmem, rfl⟩
  obtain ⟨h1, h2, h3, h4, h5, h6, h7, h8⟩ := hom
  by_cases h : (b.id == bid) = true
  · simp only [h, if_true]
    simp [applyUpdate, h1, h2, h3, h4, h5, h6, h7, h8]
  · have hfalse : (b.id == bid) = false := by
      cases hh : b.id == bid
      · rfl
      · exact absurd hh h
    simp only [hfalse, Bool.false_eq_true, if_false] at hid
    exact absurd (beq_iff_eq.2 hid) (by simp [hfalse])

/-- C10 witness: editing `bookingA` with every optional field omitted
resets its email/address/city/state/zip/flooring/notes to `""` and its
rooms to 1 (they previously held nonempty values). -/
theorem update_booking_omitted_fields_reset_witness :
    (dbA.bookings.find? (fun b => b.id == 1) = some bookingA)
    ∧ (applyUpdate editOmit bookingA
        ∈ (update_booking false "t2" 1 editOmit dbA).2.bookings)
    ∧ bookingA.email ≠ "" ∧ bookingA.rooms ≠ 1
    ∧ ((applyUpdate editOmit bookingA).email = ""
       ∧ (applyUpdate editOmit bookingA).address = ""
       ∧ (applyUpdate editOmit bookingA).city = ""
       ∧ (applyUpdate editOmit bookingA).state = ""
       ∧ (applyUpdate editOmit bookingA).zip = ""
       ∧ (applyUpdate editOmit bookingA).flooring_type = ""
       ∧ (applyUpdate editOmit bookingA).notes = ""
       ∧ (applyUpdate editOmit bookingA).rooms = 1) := by
  have h := update_booking_omitted_fields_reset false "t2" 1 editOmit dbA
    bookingA (by decide) (by decide) (by decide) (by decide)
    ⟨rfl, rfl, rfl, rfl, rfl, rfl, rfl, rfl⟩
  exact ⟨by decide, by decide, by decide, by decide,
    h.2 _ (by decide) (by decide)⟩

/-- A valid request whose pre-insert lookup finds a conflicting row is
rejected with the user-facing 409 message, with no state change. -/
theorem create_booking_precheck_conflict (rfE : Bool) (crm : CrmOutcomes)
    (now : String) (r : CreatePayload) (st : DbState)
    (hv : createValid r = true)
    (hc : tripleConflict st.bookings (pyStrip r.date) (pyStrip r.time_slot)
      (r.estimator_id.getD 0) = true) :
    create_booking rfE crm now r st
      = (.err 409 "This slot was already booked. Please refresh.", st) := by
  unfold create_booking
  rw [hv, hc]
  rfl

/-- Slot-triple uniqueness restated over the triple projection of the
table. -/
theorem tripleUnique_iff_map (l : List Booking) :
    tripleUnique l ↔
      (l.map fun b => (b.date, b.time_slot, b.estimator_id)).Pairwise
        (· ≠ ·) := by
  rw [List.pairwise_map]
  unfold tripleUnique
  constructor
  · exact fun h => h.imp fun hab => by
      simpa [sameSlot, Prod.ext_iff] using hab
  · exact fun h => h.imp fun hab => by
      simpa [sameSlot, Prod.ext_iff] using hab

/-- Booking creation preserves the slot-uniqueness invariant: on every
path the table is either unchanged or extended by a row whose triple the
conflict check proved absent. -/
theorem create_booking_preserves_tripleUnique (rfE : Bool)
    (crm : CrmOutcomes) (now : String) (r : CreatePayload) (st : DbState)
    (hU : tripleUnique st.bookings) :
    tripleUnique (create_booking rfE crm now r st).2.bookings := by
  by_cases hv : createValid r = true
  · by_cases hc : tripleConflict st.bookings (pyStrip r.date)
        (pyStrip r.time_slot) (r.estimator_id.getD 0) = true
    · rw [create_booking_precheck_conflict rfE crm now r st hv hc]
      exact hU
    · have hc' : tripleConflict st.bookings (pyStrip r.date)
          (pyStrip r.time_slot) (r.estimator_id.getD 0) = false := by
        cases h : tripleConflict st.bookings (pyStrip r.date)
            (pyStrip r.time_slot) (r.estimator_id.getD 0)
        · rfl
        · exact absurd h hc
      rw [create_booking_eq_insertPhase rfE crm now r st hv hc',
        insertPhase_free now r _ _ _ st hc']
      dsimp only
      rw [tripleUnique, List.pairwise_append]
      refine ⟨hU, by simp, ?_⟩
      intro a ha b hb
      rw [List.mem_singleton] at hb
      subst hb
      intro hsame
      exact (tripleConflict_false_iff _ _ _ _).1 hc' a ha
        ⟨hsame.1, hsame.2.1, hsame.2.2⟩
  · have hv' : createValid r = false := by
      cases h : createValid r
      · rfl
      · exact absurd h hv
    unfold create_booking
    rw [hv']
    exact hU

/-- Editing preserves the slot-uniqueness invariant (the triple projection
is untouched). -/
theorem update_booking_preserves_tripleUnique (rfE : Bool) (now : String)
    (bid : Nat) (d : UpdatePayload) (st : DbState)
    (hU : tripleUnique st.bookings) :
    tripleUnique (update_booking rfE now bid d st).2.bookings := by
  rw [tripleUnique_iff_map, (update_booking_frame_eqs rfE now bid d st).1]
  exact (tripleUnique_iff_map _).1 hU

/-- Cancellation preserves the slot-uniqueness invariant (the table only
shrinks). -/
theorem delete_booking_preserves_tripleUnique (now : String) (bid : Nat)
    (db : Option String) (st : DbState)
    (hU : tripleUnique st.bookings) :
    tripleUnique (delete_booking now bid db st).2.bookings :=
  List.Pairwise.sublist (List.filter_sublist st.bookings) hU

/-- C1: the slot-uniqueness protocol of the allocator.  (a) Every booking
operation — create, edit, cancel — preserves uniqueness of the
`(date, time_slot, estimator_id)` triple over the stored bookings.
(b) Of two valid requests for the same free slot triple, processed in
either arrival order (both requests are arbitrary, so the order is
symmetric), the first is created and the second is rejected 409 with the
pre-check's "This slot was already booked" conflict message.  (c) Even
when both requests pass the pre-insert lookup against the same state —
the racing interleaving — the persistence-level uniqueness constraint
rejects the second insert with the 409 "Slot just booked by someone else"
message, making the constraint the authoritative guarantee and the lookup
an optimization. -/
theorem booking_slot_conflict_resolution :
    (∀ rfE crm now r st, tripleUnique st.bookings →
        tripleUnique (create_booking rfE crm now r st).2.bookings)
    ∧ (∀ rfE now bid d st, tripleUnique st.bookings →
        tripleUnique (update_booking rfE now bid d st).2.bookings)
    ∧ (∀ now bid db st, tripleUnique st.bookings →
        tripleUnique (delete_booking now bid db st).2.bookings)
    ∧ (∀ rfE1 rfE2 crm1 crm2 now1 now2 r1 r2 st,
        createValid r1 = true → createValid r2 = true →
        pyStrip r1.date = pyStrip r2.date →
        pyStrip r1.time_slot = pyStrip r2.time_slot →
        r1.estimator_id = r2.estimator_id →
        tripleConflict st.bookings (pyStrip r1.date) (pyStrip r1.time_slot)
          (r1.estimator_id.getD 0) = false →
        (∃ synced lg, (create_booking rfE1 crm1 now1 r1 st).1
            = ApiResult.created st.next_booking_id synced lg)
        ∧ (create_booking rfE2 crm2 now2 r2
             (create_booking rfE1 crm1 now1 r1 st).2).1
            = ApiResult.err 409
                "This slot was already booked. Please refresh.")
    ∧ (∀ now1 now2 r1 r2 c1 e1 p1 c2 e2 p2 st,
        pyStrip r1.date = pyStrip r2.date →
        pyStrip r1.time_slot = pyStrip r2.time_slot →
        r1.estimator_id = r2.estimator_id →
        tripleConflict st.bookings (pyStrip r1.date) (pyStrip r1.time_slot)
          (r1.estimator_id.getD 0) = false →
        (insertPhase now1 r1 c1 e1 p1 st).1
            = ApiResult.created st.next_booking_id (c1 != "") p1
        ∧ (insertPhase now2 r2 c2 e2 p2
             (insertPhase now1 r1 c1 e1 p1 st).2).1
            = ApiResult.err 409
                "Slot just booked by someone else. Please refresh.") := by
  refine ⟨create_booking_preserves_tripleUnique,
    update_booking_preserves_tripleUnique,
    delete_booking_preserves_tripleUnique, ?_, ?_⟩
  · intro rfE1 rfE2 crm1 crm2 now1 now2 r1 r2 st hv1 hv2 hd ht he hfree
    have h1 := create_booking_eq_insertPhase rfE1 crm1 now1 r1 st hv1 hfree
    have hins := insertPhase_free now1 r1
      (crmSync rfE1 crm1 (pyStrip r1.phone)).1
      (crmSync rfE1 crm1 (pyStrip r1.phone)).2.1
      (crmSync rfE1 crm1 (pyStrip r1.phone)).2.2 st hfree
    constructor
    · rw [h1, hins]
      exact ⟨_, _, rfl⟩
    · rw [h1, hins]
      have hrow : tripleConflict
          (st.bookings ++ [mkBookingRow st.next_booking_id now1 r1
            (crmSync rfE1 crm1 (pyStrip r1.phone)).1
            (crmSync rfE1 crm1 (pyStrip r1.phone)).2.1])
          (pyStrip r2.date) (pyStrip r2.time_slot)
          (r2.estimator_id.getD 0) = true :=
        tripleConflict_after_insert _ _ _ _ _ hd ht (by rw [← he]; rfl)
      rw [create_booking_precheck_conflict rfE2 crm2 now2 r2 _ hv2 hrow]
  · intro now1 now2 r1 r2 c1 e1 p1 c2 e2 p2 st hd ht he hfree
    have hins := insertPhase_free now1 r1 c1 e1 p1 st hfree
    constructor
    · rw [hins]
    · rw [hins]
      have hrow : tripleConflict
          (st.bookings ++ [mkBookingRow st.next_booking_id now1 r1 c1 e1])
          (pyStrip r2.date) (pyStrip r2.time_slot)
          (r2.estimator_id.getD 0) = true :=
        tripleConflict_after_insert _ _ _ _ _ hd ht (by rw [← he]; rfl)
      rw [insertPhase_conflict now2 r2 c2 e2 p2 _ hrow]

/-- C1 witness: in the empty database, `reqA` claims the slot and the
same-triple `reqB` is rejected 409 in both the sequential and the
interleaved (post-pre-check) order, and uniqueness holds afterwards. -/
theorem booking_slot_conflict_resolution_witness :
    (createValid reqA = true ∧ createValid reqB = true
      ∧ tripleConflict emptyDb.bookings (pyStrip reqA.date)
          (pyStrip reqA.time_slot) (reqA.estimator_id.getD 0) = false
      ∧ tripleUnique emptyDb.bookings)
    ∧ (∃ synced lg, (create_booking false crmNone "t0" reqA emptyDb).1
        = ApiResult.created 1 synced lg)
    ∧ (create_booking false crmNone "t1" reqB
         (create_booking false crmNone "t0" reqA emptyDb).2).1
        = ApiResult.err 409 "This slot was already booked. Please refresh."
    ∧ (insertPhase "t1" reqB "" "" []
         (insertPhase "t0" reqA "" "" [] emptyDb).2).1
        = ApiResult.err 409 "Slot just booked by someone else. Please refresh."
    ∧ tripleUnique (create_booking false crmNone "t0" reqA emptyDb).2.bookings := by
  have h4 := booking_slot_conflict_resolution.2.2.2.1 false false crmNone
    crmNone "t0" "t1" reqA reqB emptyDb (by decide) (by decide) (by decide)
    (by decide) (by decide) (by decide)
  have h5 := booking_slot_conflict_resolution.2.2.2.2 "t0" "t1" reqA reqB
    "" "" [] "" "" [] emptyDb (by decide) (by decide) (by decide) (by decide)
  have h1 := booking_slot_conflict_resolution.1 false crmNone "t0" reqA
    emptyDb (by decide)
  exact ⟨⟨by decide, by decide, by decide, by decide⟩, h4.1, h4.2, h5.2, h1⟩

/-- On a non-null probe, the SQL null-aware comparison coincides with
plain equality of options. -/
theorem sqlEqNat_some (x : Option Nat) (d : Nat) :
    sqlEqNat x (some d) = (x == some d) := by
  cases x <;> rfl

/-- Characterization of the SQL null-aware comparison: true exactly when
both sides hold the same non-null value. -/
theorem sqlEqNat_eq_true_iff (a b : Option Nat) :
    sqlEqNat a b = true ↔ ∃ w, a = some w ∧ b = some w := by
  cases a with
  | none => simp [sqlEqNat]
  | some x =>
      cases b with
      | none => simp [sqlEqNat]
      | some y =>
          constructor
          · intro h
            have hxy : x = y := by simpa [sqlEqNat] using h
            exact ⟨y, by rw [hxy], rfl⟩
          · rintro ⟨w, hx, hy⟩
            rw [Option.some.inj hx, Option.some.inj hy]
            simp [sqlEqNat]

/-- One loop iteration of the one-off branch preserves recurring
uniqueness: it only ever inserts non-recurring rows. -/
theorem oneOffStep_preserves (e : Nat) (lbl : String) (acc : DbState)
    (d : String) (hU : recurringUnique acc.time_off) :
    recurringUnique (oneOffStep e lbl acc d).time_off := by
  unfold oneOffStep
  split
  · exact hU
  · dsimp only
    rw [recurringUnique, List.pairwise_append]
    refine ⟨hU, by simp, ?_⟩
    intro a ha b hb
    rw [List.mem_singleton] at hb
    subst hb
    intro hsame
    exact absurd hsame.2.1 (by simp)

/-- The whole one-off loop preserves recurring uniqueness. -/
theorem foldl_oneOffStep_preserves (e : Nat) (lbl : String)
    (ds : List String) (acc : DbState)
    (hU : recurringUnique acc.time_off) :
    recurringUnique (ds.foldl (oneOffStep e lbl) acc).time_off := by
  induction ds generalizing acc with
  | nil => exact hU
  | cons d ds ih => exact ih _ (oneOffStep_preserves e lbl acc d hU)

/-- C7: creating a recurring time-off entry for a (estimator, day-of-week)
pair deletes every stored recurring row of that pair before inserting the
new one, so the new row is the only recurring row of the pair afterwards;
and every time-off operation (recurring or one-off creation, deletion)
preserves the invariant that at most one recurring row exists per
(estimator, day-of-week) pair. -/
theorem timeoff_recurring_replacement :
    (∀ p st d, p.recurring = true → p.day_of_week = some d →
        (create_timeoff p st).2.time_off.filter (fun t =>
            t.estimator_id == p.estimator_id && t.recurring
              && t.day_of_week == some d)
          = [{ id := st.next_timeoff_id, estimator_id := p.estimator_id,
               date := none, day_of_week := some d,
               label := p.label.getD "Off", recurring := true }])
    ∧ (∀ p st, recurringUnique st.time_off →
        recurringUnique (create_timeoff p st).2.time_off)
    ∧ (∀ tid st, recurringUnique st.time_off →
        recurringUnique (delete_timeoff tid st).2.time_off) := by
  refine ⟨?_, ?_, ?_⟩
  · intro p st d hrec hdw
    unfold create_timeoff
    rw [hrec, hdw]
    dsimp only
    rw [if_pos rfl]
    dsimp only
    rw [List.filter_append, List.filter_filter]
    have hzero : (fun t : TimeOffEntry =>
        (t.estimator_id == p.estimator_id && t.recurring
          && t.day_of_week == some d)
        && !(t.estimator_id == p.estimator_id && t.recurring
          && sqlEqNat t.day_of_week (some d))) = fun _ => false := by
      funext t
      rw [sqlEqNat_some]
      exact Bool.and_not_self _
    rw [hzero]
    simp
  · intro p st hU
    unfold create_timeoff
    by_cases hrec : p.recurring = true
    · rw [hrec]
      dsimp only
      rw [if_pos rfl]
      dsimp only
      rw [recurringUnique, List.pairwise_append]
      refine ⟨List.Pairwise.sublist (List.filter_sublist _) hU,
        by simp, ?_⟩
      intro a ha b hb
      rw [List.mem_singleton] at hb
      subst hb
      rw [List.mem_filter] at ha
      obtain ⟨-, hA⟩ := ha
      intro hsame
      obtain ⟨hra, -, hest, hdw, hnn⟩ := hsame
      dsimp only at hest hdw
      rw [Bool.not_eq_true'] at hA
      have h3 : sqlEqNat a.day_of_week p.day_of_week = true := by
        cases hw : a.day_of_week with
        | none => exact absurd hw hnn
        | some w =>
            rw [hw] at hdw
            exact (sqlEqNat_eq_true_iff _ _).2 ⟨w, rfl, hdw.symm⟩
      rw [beq_iff_eq.2 hest, hra, h3] at hA
      simp at hA
    · have hrec' : p.recurring = false := by
        cases h : p.recurring
        · rfl
        · exact absurd h hrec
      rw [hrec']
      dsimp only
      rw [if_neg (by simp)]
      exact foldl_oneOffStep_preserves _ _ _ _ hU
  · intro tid st hU
    exact List.Pairwise.sublist (List.filter_sublist _) hU

/-- C7 witness: replacing the stored recurring Wednesday entry of
estimator 7 leaves exactly the new entry for that pair, and uniqueness
holds afterwards. -/
theorem timeoff_recurring_replacement_witness :
    (timeOffWed.recurring = true ∧ timeOffWed.day_of_week = some 2
      ∧ recurringUnique dbTimeOff.time_off)
    ∧ (create_timeoff timeOffWed dbTimeOff).2.time_off.filter (fun t =>
          t.estimator_id == timeOffWed.estimator_id && t.recurring
            && t.day_of_week == some 2)
        = [{ id := 2, estimator_id := 7, date := none,
             day_of_week := some 2, label := "Vacation",
             recurring := true }]
    ∧ recurringUnique (create_timeoff timeOffWed dbTimeOff).2.time_off := by
  have h1 := timeoff_recurring_replacement.1 timeOffWed dbTimeOff 2 rfl rfl
  have h2 := timeoff_recurring_replacement.2.1 timeOffWed dbTimeOff
    (by decide)
  exact ⟨⟨rfl, rfl, by decide⟩, h1, h2⟩

/-- C8 (spec-modelled): the exclusion predicate returns true exactly when
a one-off time-off row exists for that estimator and that calendar date,
or a recurring row exists for that estimator and the date's day-of-week. -/
theorem is_time_off_spec (st : DbState) (e : Nat) (s : String) :
    is_time_off st e s = true ↔
      (∃ t ∈ st.time_off, t.recurring = false ∧ t.estimator_id = e
         ∧ t.date = some s)
      ∨ (∃ t ∈ st.time_off, t.recurring = true ∧ t.estimator_id = e
         ∧ ∃ w, dayOfWeekOfDate s = some w ∧ t.day_of_week = some w) := by
  unfold is_time_off
  rw [List.any_eq_true]
  constructor
  · rintro ⟨t, ht, hp⟩
    rw [Bool.and_eq_true, beq_iff_eq] at hp
    obtain ⟨hest, hcond⟩ := hp
    cases hr : t.recurring with
    | true =>
        rw [if_pos hr] at hcond
        obtain ⟨w, hw1, hw2⟩ := (sqlEqNat_eq_true_iff _ _).1 hcond
        exact Or.inr ⟨t, ht, hr, hest, w, hw2, hw1⟩
    | false =>
        rw [if_neg (by simp [hr])] at hcond
        exact Or.inl ⟨t, ht, hr, hest, by simpa using hcond⟩
  · rintro (⟨t, ht, hr, hest, hd⟩ | ⟨t, ht, hr, hest, w, hw1, hw2⟩)
    · refine ⟨t, ht, ?_⟩
      rw [Bool.and_eq_true, beq_iff_eq]
      refine ⟨hest, ?_⟩
      rw [if_neg (by simp [hr]), hd]
      simp
    · refine ⟨t, ht, ?_⟩
      rw [Bool.and_eq_true, beq_iff_eq]
      refine ⟨hest, ?_⟩
      rw [if_pos hr]
      exact (sqlEqNat_eq_true_iff _ _).2 ⟨w, hw2, hw1⟩

/-- C8 witness: the stored recurring Wednesday entry makes estimator 7
off on 2024-06-05 (a Wednesday), via the recurring disjunct. -/
theorem is_time_off_spec_witness :
    (∃ t ∈ dbTimeOff.time_off, t.recurring = true ∧ t.estimator_id = 7
       ∧ ∃ w, dayOfWeekOfDate "2024-06-05" = some w
           ∧ t.day_of_week = some w)
    ∧ is_time_off dbTimeOff 7 "2024-06-05" = true := by
  have hex : ∃ t ∈ dbTimeOff.time_off, t.recurring = true
      ∧ t.estimator_id = 7
      ∧ ∃ w, dayOfWeekOfDate "2024-06-05" = some w
          ∧ t.day_of_week = some w :=
    ⟨{ id := 1, estimator_id := 7, date := none, day_of_week := some 2,
       label := "Off", recurring := true }, by decide, rfl, rfl, 2,
      by decide, rfl⟩
  exact ⟨hex, (is_time_off_spec dbTimeOff 7 "2024-06-05").mpr
    (Or.inr hex)⟩

end EstimateScheduler
